import Mathlib

/-!
Verification development for the ComicWiki calibre metadata-source plugin
(`src/__init__.py`).  The plugin's two entry points relevant here are
`ComicWiki.identify` (candidate discovery plus worker spawning) and
`Worker.get_details` (per-candidate page fetch and field extraction).
External collaborators (the HTTP browser, the html5 parser, lxml
`tostring`, calibre's `sanitize_comments_html`) are modelled as oracles:
a search fetch yields the list of harvested hrefs or an exception, a page
fetch yields the raw body or an exception, and a parse yields a `Page`
value holding the texts each XPath query of the source would return.
All Python string operations used by the source (`strip`, `replace`,
`split(" ")`, `int(...)`, truthiness) are reimplemented character by
character so every definition evaluates by kernel reduction.
-/

namespace ComicWikiPlugin

/-- Models Python `str.strip` using the same notion of ASCII whitespace
that `Char.isWhitespace` provides: drop whitespace from both ends. -/
def pyStrip (s : String) : String :=
  String.mk (((s.data.dropWhile Char.isWhitespace).reverse.dropWhile Char.isWhitespace).reverse)

/-- Models Python `s.replace(a, b)` for one-character `a` and `b`. -/
def pyMapChar (a b : Char) (s : String) : String :=
  String.mk (s.data.map (fun c => if c = a then b else c))

/-- Models Python `s.replace(a, "")` for a one-character `a`. -/
def pyDelChar (a : Char) (s : String) : String :=
  String.mk (s.data.filter (fun c => c ≠ a))

/-- Character-level removal of every occurrence of the literal `ISBN`,
scanning left to right; models Python `s.replace("ISBN", "")`. -/
def delISBNChars : List Char → List Char
  | 'I' :: 'S' :: 'B' :: 'N' :: rest => delISBNChars rest
  | c :: rest => c :: delISBNChars rest
  | [] => []

/-- Models Python `s.replace("ISBN", "")`. -/
def pyDelISBN (s : String) : String := String.mk (delISBNChars s.data)

/-- Splitting on a single blank, keeping empty pieces; models Python
`s.split(" ")`. -/
def splitSpacesAux : List Char → List Char → List String
  | [], acc => [String.mk acc.reverse]
  | c :: cs, acc =>
      if c = ' ' then String.mk acc.reverse :: splitSpacesAux cs []
      else splitSpacesAux cs (c :: acc)

/-- Models Python `s.split(" ")`. -/
def splitSpaces (s : String) : List String := splitSpacesAux s.data []

/-- Digit-accumulator for `pyInt?`. -/
def digitsValAux : Nat → List Char → Option Nat
  | acc, [] => some acc
  | acc, c :: cs =>
      if c.isDigit then digitsValAux (acc * 10 + (c.toNat - 48)) cs else none

/-- Value of a non-empty all-digit character list. -/
def digitsVal : List Char → Option Nat
  | [] => none
  | cs => digitsValAux 0 cs

/-- Models Python `int(s)` on decimal tokens: surrounding whitespace is
ignored, an optional sign is allowed, and anything else than a non-empty
digit run fails (Python raises `ValueError`, modelled as `none`). -/
def pyInt? (s : String) : Option Int :=
  match (pyStrip s).data with
  | '-' :: rest => (digitsVal rest).map (fun n => -(n : Int))
  | '+' :: rest => (digitsVal rest).map (fun n => (n : Int))
  | l => (digitsVal l).map (fun n => (n : Int))

/-- Python truthiness of an optional string (`None` and `""` are falsy). -/
def pyTruthyStr : Option String → Bool
  | none => false
  | some s => !(s == "")

/-- Python truthiness of a list (empty is falsy). -/
def pyTruthyList (l : List String) : Bool := !l.isEmpty

/-- Python `min` over two integers. -/
def intMin (a b : Int) : Int := if a ≤ b then a else b

/-- Python `min` over a list (fails on an empty list). -/
def minList : List Int → Option Int
  | [] => none
  | x :: xs => some (xs.foldl intMin x)

/-- The result of parsing one candidate page: for each XPath query of
`Worker.get_details`, the text contents the query would return.  An lxml
element's `.text` can be `None`, hence the `Option String` entries; the
`@src`/`@href` attribute queries always return strings. -/
structure Page where
  titleNodes : List (Option String)
  authorNodes : List (Option String)
  designerNodes : List (Option String)
  isbnNodes : List (Option String)
  commentBlocks : List String
  coverSrcs : List String
  publisherNodes : List (Option String)
  seriesNodes : List (Option String)
  seriesIndexNodes : List (Option String)
  releaseItems : List (Option String)
  deriving Repr, DecidableEq

/-- A publication date as the source builds it from `01-01-<year>`. -/
structure PubDate where
  day : Nat
  month : Nat
  year : Int
  deriving Repr, DecidableEq

/-- The metadata record a worker publishes: the fields of the calibre
`Metadata` object that `Worker.get_details` assigns. -/
structure Record where
  title : Option String
  authors : List String
  comicwiki_id : String
  isbn_identifier : Option String
  isbn : Option String
  source_relevance : Option Nat
  cover_url : Option String
  publisher : Option String
  comments : Option String
  seriesPair : Option (String × Option String)
  tags : List String
  pubdate : Option PubDate
  deriving Repr, DecidableEq

/-- One spawned worker thread: its candidate URL, its relevance rank and
its fetch timeout (`Worker.__init__` defaults `timeout` to 20 and
`ComicWiki.identify` never overrides it). -/
structure Worker where
  url : String
  relevance : Nat
  timeout : Nat
  deriving Repr, DecidableEq

/-- What the discovery part of `ComicWiki.identify` produces: the built
`google_matches` query URLs, the `(url, timeout)` pairs actually passed
to `br.open_novisit`, and the accumulated `matches` list. -/
structure Discovery where
  googleMatches : List String
  fetchCalls : List (String × Nat)
  matchUrls : List String
  deriving Repr, DecidableEq

/-- The oracles a worker interacts with: `pageFetch url timeout` models
`browser.open_novisit(url, timeout).read()` (an exception becomes
`Except.error`), and `parsePage` models `html5_parser.parse` followed by
the XPath queries (a parse failure becomes `none`). -/
structure WorkerEnv where
  pageFetch : String → Nat → Except Unit String
  parsePage : String → Option Page

/-- The constant `ComicWiki.BASE_URL` of the source. -/
def BASE_URL : String := "https://www.google.com/search?q=site:comicwiki.dk "

/-- The title part of a search query:
`title.replace(" ", "+").replace("-", "+")`. -/
def plusTitle (t : String) : String := pyMapChar '-' '+' (pyMapChar ' ' '+' t)

/-- The title-only search URL the source builds:
`BASE_URL + title.replace(" ", "+").replace("-", "+")`. -/
def titleQuery (t : String) : String := BASE_URL ++ plusTitle t

/-- The title-plus-author search URL the source builds:
`BASE_URL + authors[0].replace(" ", "+") + "+" + title.replace(" ", "+").replace("-", "+")`. -/
def authorTitleQuery (a t : String) : String :=
  BASE_URL ++ pyMapChar ' ' '+' a ++ "+" ++ plusTitle t

/-- Link harvesting from one search-results page: the source iterates
`google_nodes[:4]` and appends every href different from `"#"`. -/
def harvest (hrefs : List String) : List String :=
  (hrefs.take 4).filter (fun u => u != "#")

/-- The discovery part of `ComicWiki.identify` (its lines up to the abort
check): `searchFetch url timeout` models
`parse(br.open_novisit(url, timeout).read().strip())` followed by the
`//div[@class="g"]//a/@href` query, returning the href list or an
exception.  `comicwiki` is `identifiers.get('comicwiki', None)`.  Note
that the source passes `google_matches[0]` to both search fetches, so
the second fetch reads the title-only URL again even though the
title-plus-author URL was just appended as `google_matches[1]`. -/
def discover (searchFetch : String → Nat → Except Unit (List String))
    (title : Option String) (authors : List String) (comicwiki : Option String) :
    Except Unit Discovery :=
  let matches0 : List String := if pyTruthyStr comicwiki then [comicwiki.getD ""] else []
  if pyTruthyStr title then
    let t := title.getD ""
    let q1 := titleQuery t
    match searchFetch q1 30 with
    | .error e => .error e
    | .ok hrefs1 =>
      let m1 := matches0 ++ harvest hrefs1
      if pyTruthyStr title && pyTruthyList authors then
        let q2 := authorTitleQuery (authors.headD "") t
        match searchFetch q1 30 with
        | .error e => .error e
        | .ok hrefs2 =>
          .ok ⟨[q1, q2], [(q1, 30), (q1, 30)], m1 ++ harvest hrefs2⟩
      else
        .ok ⟨[q1], [(q1, 30)], m1⟩
  else
    .ok ⟨[], [], matches0⟩

/-- Worker spawning in `ComicWiki.identify`:
`[Worker(url, result_queue, br, log, i, self) for i, url in enumerate(matches)]`,
each worker keeping the `Worker.__init__` default timeout of 20. -/
def spawnWorkers (matchUrls : List String) : List Worker :=
  matchUrls.enum.map (fun p => { url := p.2, relevance := p.1, timeout := 20 })

/-- Title extraction: `root.xpath('//h1[@class="firstHeading"]')`, then
`title_node[0].text.strip()`; an empty node list (`IndexError`) or a
`None` text (`AttributeError`) is caught and leaves the title unset. -/
def extractTitle (root : Page) : Option String :=
  match root.titleNodes with
  | [] => none
  | none :: _ => none
  | some s :: _ => some (pyStrip s)

/-- One pass of the author loop: append each node's stripped text when it
is not `None` and not already present. -/
def addNames (acc : List String) (nodes : List (Option String)) : List String :=
  nodes.foldl
    (fun acc t =>
      match t with
      | none => acc
      | some s => if pyStrip s ∈ acc then acc else acc ++ [pyStrip s])
    acc

/-- Author extraction: the `Forfatter` row's links first, then the
`Tegner:` row's links, de-duplicated in insertion order. -/
def extractAuthors (root : Page) : List String :=
  addNames (addNames [] root.authorNodes) root.designerNodes

/-- ISBN extraction: first `a.internal.mw-magiclink-isbn` node's text,
`strip()`ed, then spaces, the literal `ISBN` and hyphens removed; a
`None` text (`AttributeError`) leaves the field unset. -/
def extractIsbn (root : Page) : Option String :=
  match root.isbnNodes with
  | [] => none
  | none :: _ => none
  | some s :: _ => some (pyDelChar '-' (pyDelISBN (pyDelChar ' ' (pyStrip s))))

/-- Comment extraction: starting from the empty string, each matched
block (already serialised and sanitised by the external collaborators,
hence a plain string here) is appended followed by one blank. -/
def extractComments (root : Page) : String :=
  root.commentBlocks.foldl (fun acc c => acc ++ c ++ " ") ""

/-- Cover extraction: first `@src` under `div.aib-image`, prefixed with
the site origin. -/
def extractCoverUrl (root : Page) : Option String :=
  match root.coverSrcs with
  | [] => none
  | s :: _ => some ("https://comicwiki.dk" ++ s)

/-- Publisher extraction: first link text under the releases table,
`strip()`ed; a `None` text leaves the field unset. -/
def extractPublisher (root : Page) : Option String :=
  match root.publisherNodes with
  | [] => none
  | none :: _ => none
  | some s :: _ => some (pyStrip s)

/-- Series extraction: `series_node[0].text`, which may itself be `None`. -/
def extractSeries (root : Page) : Option String :=
  match root.seriesNodes with
  | [] => none
  | t :: _ => t

/-- Series-index extraction: `series_index_node[0].text`. -/
def extractSeriesIndex (root : Page) : Option String :=
  match root.seriesIndexNodes with
  | [] => none
  | t :: _ => t

/-- Tokens of one release list item:
`item.text.strip().replace(":", "").replace(",", "").split(" ")`. -/
def itemTokens (s : String) : List String :=
  splitSpaces (pyDelChar ',' (pyDelChar ':' (pyStrip s)))

/-- Sequential `int(...)` over a token list, failing on the first token
that does not parse (the `ValueError` aborts the whole `try` block). -/
def parseAll : List String → Option (List Int)
  | [] => some []
  | t :: ts =>
      match pyInt? t with
      | none => none
      | some n =>
          match parseAll ts with
          | none => none
          | some ns => some (n :: ns)

/-- The release-item loop of the pubdate heuristic.  `years` is the
variable of the same name in the source: it is only reassigned when an
item's text is not `None`, so an item without text re-appends the
previous item's tokens.  A failing `int(...)` anywhere aborts with
`none` (the surrounding `try` catches the `ValueError`). -/
def yearLoop : List (Option String) → List String → List Int → Option (List Int)
  | [], _, releases => some releases
  | item :: rest, years, releases =>
      let years2 := match item with
        | none => years
        | some s => itemTokens s
      match parseAll years2 with
      | none => none
      | some ns => yearLoop rest years2 (releases ++ ns)

/-- Publication-date extraction over the releases-table list items.  On
success the source formats `f"01-01-{min(releases)}"` and parses it with
`strptime('%d-%m-%Y')`, whose `%Y` matches exactly four digits, so only
a minimum between 1000 and 9999 yields a date; any failure inside the
`try` leaves the field unset. -/
def extractPubdate (items : List (Option String)) : Option PubDate :=
  match yearLoop items [] [] with
  | none => none
  | some releases =>
      match minList releases with
      | none => none
      | some m => if 1000 ≤ m ∧ m ≤ 9999 then some ⟨1, 1, m⟩ else none

/-- Metadata assembly at the end of `Worker.get_details`: each field is
assigned only when the corresponding worker attribute is truthy, the
relevance only when it is a non-zero integer, and the tag pair is the
constant `('Comics', 'Graphic Novels')`. -/
def extractRecord (root : Page) (url : String) (relevance : Nat) : Record :=
  let isbn := extractIsbn root
  let comments := extractComments root
  let publisher := extractPublisher root
  let series := extractSeries root
  let cover := extractCoverUrl root
  { title := extractTitle root
    authors := extractAuthors root
    comicwiki_id := url
    isbn_identifier := isbn
    isbn := match isbn with
      | some s => if s ≠ "" then some s else none
      | none => none
    source_relevance := if relevance ≠ 0 then some relevance else none
    cover_url := match cover with
      | some c => if c ≠ "" then some c else none
      | none => none
    publisher := match publisher with
      | some p => if p ≠ "" then some p else none
      | none => none
    comments := if comments ≠ "" then some comments else none
    seriesPair := match series with
      | some s => if s ≠ "" then some (s, extractSeriesIndex root) else none
      | none => none
    tags := ["Comics", "Graphic Novels"]
    pubdate := extractPubdate root.releaseItems }

/-- The body of `Worker.get_details`: fetch the page (any classified
fetch failure returns without publishing), `strip()` the body, test the
literal 404 marker by whole-body equality, parse (failure returns
without publishing), then extract every field and publish exactly one
record. -/
def getDetails (env : WorkerEnv) (w : Worker) : Option Record :=
  match env.pageFetch w.url w.timeout with
  | .error _ => none
  | .ok body =>
      let raw := pyStrip body
      if raw = "<title>404 - " then none
      else
        match env.parsePage raw with
        | none => none
        | some root => some (extractRecord root w.url w.relevance)

/-- The whole of `ComicWiki.identify` in one call, with the source's
unused `timeout` parameter kept in the signature: discovery (whose
uncaught exceptions propagate to the caller), then the abort checkpoint
(`if abort.is_set(): return`), then worker spawning, each worker's
published record collected from the result queue. -/
def identify (searchFetch : String → Nat → Except Unit (List String)) (env : WorkerEnv)
    (title : Option String) (authors : List String) (comicwiki : Option String)
    (abort : Bool) (timeout : Nat) :
    Except Unit (Discovery × List Worker × List Record) :=
  match discover searchFetch title authors comicwiki with
  | .error e => .error e
  | .ok d =>
      if abort then .ok (d, [], [])
      else
        let ws := spawnWorkers d.matchUrls
        .ok (d, ws, ws.filterMap (getDetails env))

/-- A concrete parsed detail page used by witnesses and counterexamples. -/
def samplePage : Page :=
  { titleNodes := [some "Soltemplet"]
    authorNodes := [some "Hergé"]
    designerNodes := [some "Hergé"]
    isbnNodes := [some " ISBN 978-87-11-22222-2"]
    commentBlocks := ["<p>Tintin rejser til Peru.</p>"]
    coverSrcs := ["/images/soltemplet.jpg"]
    publisherNodes := [some "Carlsen"]
    seriesNodes := [some "Tintins Oplevelser"]
    seriesIndexNodes := [some "13"]
    releaseItems := [some "1975", some "1984"] }

/-- The same page with the author and designer tables missing. -/
def samplePageNoAuthors : Page :=
  { samplePage with authorNodes := [], designerNodes := [] }

/-- A worker environment whose fetches succeed and parse to `samplePage`. -/
def sampleEnv : WorkerEnv :=
  { pageFetch := fun _ _ => .ok "<html><body>detail</body></html>"
    parsePage := fun _ => some samplePage }

/-- A worker environment whose fetches succeed and parse to the page
without author tables. -/
def sampleEnvNoAuthors : WorkerEnv :=
  { pageFetch := fun _ _ => .ok "<html><body>detail</body></html>"
    parsePage := fun _ => some samplePageNoAuthors }

/-- A search oracle returning two result links, one a placeholder. -/
def sampleSearch : String → Nat → Except Unit (List String) :=
  fun _ _ => .ok ["https://comicwiki.dk/Klo", "#"]

/-- A search oracle whose every fetch fails. -/
def failSearch : String → Nat → Except Unit (List String) :=
  fun _ _ => .error ()

/-- A search oracle distinguishing the two built queries: the title-only
results page links A and B, the title-plus-author results page links C. -/
def twoQuerySearch : String → Nat → Except Unit (List String) :=
  fun u _ =>
    if u = titleQuery "Soltemplet" then .ok ["https://comicwiki.dk/A", "https://comicwiki.dk/B"]
    else if u = authorTitleQuery "Hergé" "Soltemplet" then .ok ["https://comicwiki.dk/C"]
    else .error ()

/-- Restatement used by the amended C2 claim: parse every token of every
item in one pass and fail as a whole on the first non-integer token;
otherwise take the minimum (dated only when it has four digits). -/
def pubdateAllAtOnce (items : List String) : Option PubDate :=
  match parseAll (items.map itemTokens).flatten with
  | none => none
  | some ints =>
      match minList ints with
      | none => none
      | some m => if 1000 ≤ m ∧ m ≤ 9999 then some ⟨1, 1, m⟩ else none

/-- A raw body carrying the literal 404 title marker among further
markup, as a real 404 page would. -/
def body404 : String := "<html><head><title>404 - Siden findes ikke</title></head></html>"

/-- A worker environment serving `body404` and parsing it successfully
(the html5 parser accepts any input). -/
def env404 : WorkerEnv :=
  { pageFetch := fun _ _ => .ok body404
    parsePage := fun _ => some samplePage }

/-- Helper: the head of what `dropWhile` returns falsifies the predicate. -/
theorem dropWhile_head_false (p : Char → Bool) :
    ∀ (l : List Char) (c : Char) (ts : List Char), l.dropWhile p = c :: ts → p c = false := by
  intro l
  induction l with
  | nil => intro c ts h; simp [List.dropWhile] at h
  | cons a l ih =>
      intro c ts h
      cases hp : p a with
      | true =>
          rw [List.dropWhile_cons, hp] at h
          exact ih c ts (by simpa using h)
      | false =>
          rw [List.dropWhile_cons, hp] at h
          simp only [Bool.false_eq_true, if_false, List.cons.injEq] at h
          rw [← h.1]
          exact hp

/-- Helper: a worker publishes a record only via `extractRecord` on the
parsed page. -/
theorem getDetails_some {env : WorkerEnv} {w : Worker} {rec : Record}
    (h : getDetails env w = some rec) :
    ∃ root, env.parsePage (pyStrip ((env.pageFetch w.url w.timeout).toOption.getD "")) = some root
      ∧ rec = extractRecord root w.url w.relevance := by
  unfold getDetails at h
  cases hf : env.pageFetch w.url w.timeout with
  | error e => rw [hf] at h; simp at h
  | ok body =>
      rw [hf] at h
      simp only at h
      by_cases hm : pyStrip body = "<title>404 - "
      · rw [if_pos hm] at h; simp at h
      · rw [if_neg hm] at h
        cases hp : env.parsePage (pyStrip body) with
        | none => rw [hp] at h; simp at h
        | some root =>
            rw [hp] at h
            refine ⟨root, ?_, ?_⟩
            · simpa [hf, Except.toOption] using hp
            · exact (Option.some.inj h).symm

/-- Helper: `parseAll` distributes over append, failing when either part
fails. -/
theorem parseAll_append (a b : List String) :
    parseAll (a ++ b) =
      match parseAll a, parseAll b with
      | some x, some y => some (x ++ y)
      | _, _ => none := by
  induction a with
  | nil =>
      cases hb : parseAll b <;> simp [parseAll, hb]
  | cons t ts ih =>
      cases hi : pyInt? t with
      | none => simp [parseAll, hi]
      | some n =>
          cases hts : parseAll ts with
          | none => cases hb : parseAll b <;> simp [parseAll, hi, hts, ih, hb]
          | some ns => cases hb : parseAll b <;> simp [parseAll, hi, hts, ih, hb]

/-- Helper: over items that all carry text, the release-item loop equals
one fail-fast parse of the concatenated token lists. -/
theorem yearLoop_map_some (items : List String) :
    ∀ years releases,
      yearLoop (items.map some) years releases =
        match parseAll (items.map itemTokens).flatten with
        | none => none
        | some ns => some (releases ++ ns) := by
  induction items with
  | nil => intro years releases; simp [yearLoop, parseAll]
  | cons s rest ih =>
      intro years releases
      simp only [List.map_cons, List.flatten_cons, yearLoop]
      rw [parseAll_append]
      cases h1 : parseAll (itemTokens s) with
      | none => simp
      | some ns =>
          cases h2 : parseAll (rest.map itemTokens).flatten with
          | none => simp [ih, h2]
          | some ms => simp [ih, h2, List.append_assoc]

/-- Helper: every spawned worker keeps the default timeout 20. -/
theorem spawnWorkers_timeout (mus : List String) :
    ∀ w ∈ spawnWorkers mus, w.timeout = 20 := by
  intro w hw
  simp only [spawnWorkers, List.mem_map] at hw
  obtain ⟨p, _, rfl⟩ := hw
  rfl

/-- Helper: every fetch call discovery makes carries the literal timeout
30. -/
theorem discover_fetchCalls_30 {sf : String → Nat → Except Unit (List String)}
    {title : Option String} {authors : List String} {comicwiki : Option String}
    {d : Discovery} (h : discover sf title authors comicwiki = .ok d) :
    ∀ c ∈ d.fetchCalls, c.2 = 30 := by
  simp only [discover] at h
  by_cases h1 : pyTruthyStr title = true
  · rw [if_pos h1] at h
    cases hf : sf (titleQuery (title.getD "")) 30 with
    | error e => simp [hf] at h
    | ok hrefs1 =>
        simp only [hf] at h
        by_cases h2 : (pyTruthyStr title && pyTruthyList authors) = true
        · rw [if_pos h2] at h
          obtain rfl := Except.ok.inj h
          simp
        · rw [if_neg h2] at h
          obtain rfl := Except.ok.inj h
          simp
  · rw [if_neg h1] at h
    obtain rfl := Except.ok.inj h
    simp

/-- C1: for the query with title `Soltemplet` and author `Hergé`, the
source builds the title-plus-author URL as `google_matches[1]` but both
fetches read `google_matches[0]`, the title-only URL: the fetch-call
list repeats the title-only URL twice, the title-plus-author URL
(different from it) is never fetched, and the second harvested batch
duplicates the title-only links instead of the links of the
title-plus-author results page. -/
theorem C1_second_fetch_reuses_title_query :
    discover twoQuerySearch (some "Soltemplet") ["Hergé"] none =
      .ok { googleMatches := [titleQuery "Soltemplet", authorTitleQuery "Hergé" "Soltemplet"]
            fetchCalls := [(titleQuery "Soltemplet", 30), (titleQuery "Soltemplet", 30)]
            matchUrls := ["https://comicwiki.dk/A", "https://comicwiki.dk/B",
                          "https://comicwiki.dk/A", "https://comicwiki.dk/B"] }
    ∧ titleQuery "Soltemplet" ≠ authorTitleQuery "Hergé" "Soltemplet" := by
  exact ⟨rfl, by decide⟩

/-- C4 counterexample: a failing search fetch is not caught inside
`identify`; the exception propagates to the caller instead of being
logged and limited to that batch. -/
theorem C4_counterexample_search_failure_raises :
    identify failSearch sampleEnv (some "Klo") ["Régis Loisel"] none false 30 = .error () := rfl

/-- C4 amended: when the title is truthy and the title-only search fetch
fails, the whole `identify` call fails with that exception: the failure
is not confined to one batch, the other batch does not proceed, and the
caller sees the exception. -/
theorem C4_amended_search_failure_propagates
    (sf : String → Nat → Except Unit (List String)) (env : WorkerEnv)
    (title : Option String) (authors : List String) (comicwiki : Option String)
    (abort : Bool) (t : Nat)
    (h1 : pyTruthyStr title = true)
    (h2 : sf (titleQuery (title.getD "")) 30 = .error ()) :
    identify sf env title authors comicwiki abort t = .error () := by
  simp [identify, discover, h1, h2]

/-- Witness for the amended C4 theorem at a concrete query. -/
theorem C4_amended_witness :
    pyTruthyStr (some "Klo") = true
    ∧ failSearch (titleQuery "Klo") 30 = .error ()
    ∧ identify failSearch sampleEnv (some "Klo") [] none false 30 = .error () :=
  ⟨rfl, rfl,
    C4_amended_search_failure_propagates failSearch sampleEnv (some "Klo") [] none false 30
      rfl rfl⟩

/-- C8: for a query holding only a (truthy) title, discovery performs
exactly one search fetch, of the title-only URL, and the candidate list
is exactly the non-placeholder links among the first four harvested
hrefs, in page order. -/
theorem C8_title_only_discovery
    (sf : String → Nat → Except Unit (List String)) (t : String) (hrefs : List String)
    (ht : t ≠ "")
    (hf : sf (titleQuery t) 30 = .ok hrefs) :
    discover sf (some t) [] none =
      .ok { googleMatches := [titleQuery t]
            fetchCalls := [(titleQuery t, 30)]
            matchUrls := (hrefs.take 4).filter (fun u => u != "#") } := by
  simp [discover, pyTruthyStr, pyTruthyList, harvest, ht, hf]

/-- Witness for the C8 theorem at a concrete query. -/
theorem C8_witness :
    ("Klo" ≠ "")
    ∧ sampleSearch (titleQuery "Klo") 30 = .ok ["https://comicwiki.dk/Klo", "#"]
    ∧ discover sampleSearch (some "Klo") [] none =
        .ok { googleMatches := [titleQuery "Klo"]
              fetchCalls := [(titleQuery "Klo", 30)]
              matchUrls := (["https://comicwiki.dk/Klo", "#"].take 4).filter
                (fun u => u != "#") } :=
  ⟨by decide, rfl, C8_title_only_discovery sampleSearch "Klo" _ (by decide) rfl⟩

/-- C9: with the abort signal set at the pre-spawn checkpoint, `identify`
returns right after discovery with zero workers spawned and zero records
published, whatever the oracles and the query are. -/
theorem C9_abort_spawns_nothing
    (sf : String → Nat → Except Unit (List String)) (env : WorkerEnv)
    (title : Option String) (authors : List String) (comicwiki : Option String) (t : Nat) :
    identify sf env title authors comicwiki true t =
      (discover sf title authors comicwiki).map
        (fun d => (d, ([] : List Worker), ([] : List Record))) := by
  cases h : discover sf title authors comicwiki <;> simp [identify, h, Except.map]

/-- C2 counterexample: on release items with texts `2011` and
`genoptryk 2015` the extracted publication date is unset, not
January 1 of 2011: the `int("genoptryk")` failure aborts the whole
heuristic even though a numeric token was already collected. -/
theorem C2_counterexample_nonnumeric_token_aborts :
    extractPubdate [some "2011", some "genoptryk 2015"] = none
    ∧ extractPubdate [some "2011", some "genoptryk 2015"] ≠ some ⟨1, 1, 2011⟩ :=
  ⟨rfl, by decide⟩

/-- C2 amended: over release items that all carry text, the heuristic is
fail-fast, not collect-all: it equals one sequential parse of the
concatenated token lists, so the first token that does not parse as an
integer leaves pubdate unset, and only when every token parses is
pubdate the January-1 date of the minimum (a date only when the minimum
has four digits, as `strptime`'s `%Y` demands); on the cited items
`2011`, `genoptryk 2015` the pubdate is therefore unset. -/
theorem C2_amended_pubdate_fail_fast :
    (∀ items : List String, extractPubdate (items.map some) = pubdateAllAtOnce items)
    ∧ extractPubdate [some "2011", some "genoptryk 2015"] = none := by
  constructor
  · intro items
    unfold extractPubdate pubdateAllAtOnce
    rw [yearLoop_map_some items [] []]
    cases h : parseAll (items.map itemTokens).flatten with
    | none => rfl
    | some ns => simp
  · rfl

/-- C3 counterexample: a pre-supplied comicwiki identifier becomes the
rank-0 candidate, but the record its worker publishes leaves the
relevance field unset (the source guards the assignment with integer
truthiness, and 0 is falsy), so the published record does not carry its
discovery rank 0. -/
theorem C3_counterexample_rank_zero_relevance_unset :
    (identify sampleSearch sampleEnv none [] (some "https://comicwiki.dk/X") false 30).map
        (fun out => out.2.2.map Record.source_relevance) = .ok [none]
    ∧ ([none] : List (Option Nat)) ≠ [some 0] :=
  ⟨rfl, by decide⟩

/-- C3 amended: workers are ranked by discovery position (relevance `i`
for the candidate at index `i`, the pre-supplied identifier first at
rank 0), and a published record carries `source_relevance` equal to that
rank exactly when the rank is non-zero; the rank-0 record leaves the
field unset. -/
theorem C3_amended_relevance_only_nonzero :
    (∀ mus : List String,
        (spawnWorkers mus).map Worker.relevance = List.range mus.length
      ∧ (spawnWorkers mus).map Worker.url = mus)
    ∧ (∀ (env : WorkerEnv) (w : Worker) (rec : Record), getDetails env w = some rec →
        (w.relevance ≠ 0 → rec.source_relevance = some w.relevance)
      ∧ (w.relevance = 0 → rec.source_relevance = none)) := by
  constructor
  · intro mus
    constructor
    · simp [spawnWorkers, List.map_map, Function.comp_def]
    · simp [spawnWorkers, List.map_map, Function.comp_def]
  · intro env w rec h
    obtain ⟨root, -, rfl⟩ := getDetails_some h
    constructor
    · intro hne
      simp [extractRecord, hne]
    · intro h0
      simp [extractRecord, h0]

/-- C5: the literal 404 marker check of `Worker.get_details` is dead
code: the marker `<title>404 - ` ends in a blank while the compared body
has been stripped of surrounding whitespace, and the comparison is
whole-body equality, so it never matches (first conjunct); consequently
a worker fed a raw body carrying the marker among normal markup parses
it and publishes a record, leaving the output channel changed (remaining
conjuncts). -/
theorem C5_dead_404_marker_check :
    (∀ body : String, decide (pyStrip body = "<title>404 - ") = false)
    ∧ body404 = "<html><head>" ++ "<title>404 - " ++ "Siden findes ikke</title></head></html>"
    ∧ (getDetails env404 { url := "https://comicwiki.dk/X", relevance := 1, timeout := 20 }).isSome
        = true := by
  refine ⟨?_, rfl, rfl⟩
  intro body
  rw [decide_eq_false_iff_not]
  intro h
  have hd : (((body.data.dropWhile Char.isWhitespace).reverse.dropWhile
      Char.isWhitespace).reverse) = ("<title>404 - ").data := congrArg String.data h
  have h2 := congrArg List.reverse hd
  simp only [List.reverse_reverse] at h2
  have h3 : ("<title>404 - ").data.reverse =
      ' ' :: ['-', ' ', '4', '0', '4', '>', 'e', 'l', 't', 'i', 't', '<'] := by decide
  rw [h3] at h2
  have h4 := dropWhile_head_false Char.isWhitespace _ _ _ h2
  exact absurd h4 (by decide)

/-- C6 counterexample: the published tag pair is the plural constant
`Comics`, `Graphic Novels`, not the claimed set `Comic`,
`Graphic Novel`. -/
theorem C6_counterexample_tags_are_plural :
    (getDetails sampleEnv { url := "https://comicwiki.dk/X", relevance := 1, timeout := 20 }).map
        Record.tags = some ["Comics", "Graphic Novels"]
    ∧ (["Comics", "Graphic Novels"] : List String) ≠ ["Comic", "Graphic Novel"] :=
  ⟨rfl, by decide⟩

/-- C6 amended: every record a worker publishes carries exactly the
constant tag pair `Comics`, `Graphic Novels`, regardless of the source
page's content. -/
theorem C6_amended_constant_tags (env : WorkerEnv) (w : Worker) (rec : Record)
    (h : getDetails env w = some rec) : rec.tags = ["Comics", "Graphic Novels"] := by
  obtain ⟨root, -, rfl⟩ := getDetails_some h
  rfl

/-- Witness for the amended C6 theorem at a concrete worker run. -/
theorem C6_amended_witness :
    getDetails sampleEnv { url := "https://comicwiki.dk/X", relevance := 1, timeout := 20 }
      = some (extractRecord samplePage "https://comicwiki.dk/X" 1)
    ∧ (extractRecord samplePage "https://comicwiki.dk/X" 1).tags = ["Comics", "Graphic Novels"] :=
  ⟨rfl,
    C6_amended_constant_tags sampleEnv
      { url := "https://comicwiki.dk/X", relevance := 1, timeout := 20 }
      (extractRecord samplePage "https://comicwiki.dk/X" 1) rfl⟩

/-- C7: whenever the fetch succeeds, the stripped body is not the 404
marker and the parse succeeds, the worker publishes exactly the one
record `extractRecord` builds, whatever the page holds — and on a page
whose author and designer tables are missing the published record is the
same record with an empty author list, every other field untouched. -/
theorem C7_parse_success_always_publishes
    (env : WorkerEnv) (w : Worker) (body : String) (root : Page)
    (hf : env.pageFetch w.url w.timeout = .ok body)
    (hm : pyStrip body ≠ "<title>404 - ")
    (hp : env.parsePage (pyStrip body) = some root) :
    getDetails env w = some (extractRecord root w.url w.relevance)
    ∧ extractRecord { root with authorNodes := [], designerNodes := [] } w.url w.relevance
        = { extractRecord root w.url w.relevance with authors := [] } := by
  constructor
  · simp [getDetails, hf, hm, hp]
  · rfl

/-- Witness for the C7 theorem at a concrete page without author tables. -/
theorem C7_witness :
    sampleEnvNoAuthors.pageFetch "https://comicwiki.dk/X" 20 = .ok "<html><body>detail</body></html>"
    ∧ pyStrip "<html><body>detail</body></html>" ≠ "<title>404 - "
    ∧ sampleEnvNoAuthors.parsePage (pyStrip "<html><body>detail</body></html>")
        = some samplePageNoAuthors
    ∧ (getDetails sampleEnvNoAuthors { url := "https://comicwiki.dk/X", relevance := 1, timeout := 20 }
          = some (extractRecord samplePageNoAuthors "https://comicwiki.dk/X" 1)
      ∧ extractRecord { samplePageNoAuthors with authorNodes := [], designerNodes := [] }
            "https://comicwiki.dk/X" 1
          = { extractRecord samplePageNoAuthors "https://comicwiki.dk/X" 1 with authors := [] }) :=
  ⟨rfl, by decide, rfl,
    C7_parse_success_always_publishes sampleEnvNoAuthors
      { url := "https://comicwiki.dk/X", relevance := 1, timeout := 20 }
      "<html><body>detail</body></html>" samplePageNoAuthors rfl (by decide) rfl⟩

/-- C10: the `timeout` parameter of `identify` is never read: two calls
differing only in it behave identically, every search fetch is issued
with the literal timeout 30, and every spawned worker keeps the
`Worker.__init__` default timeout 20. -/
theorem C10_timeout_parameter_unused
    (sf : String → Nat → Except Unit (List String)) (env : WorkerEnv)
    (title : Option String) (authors : List String) (comicwiki : Option String)
    (abort : Bool) (t1 t2 : Nat) :
    identify sf env title authors comicwiki abort t1
      = identify sf env title authors comicwiki abort t2
    ∧ (∀ d ws rs, identify sf env title authors comicwiki abort t1 = .ok (d, ws, rs) →
        (∀ c ∈ d.fetchCalls, c.2 = 30) ∧ (∀ w ∈ ws, w.timeout = 20)) := by
  constructor
  · rfl
  · intro d ws rs h
    unfold identify at h
    cases hd : discover sf title authors comicwiki with
    | error e => simp [hd] at h
    | ok d2 =>
        simp only [hd] at h
        by_cases ha : abort = true
        · rw [if_pos ha] at h
          obtain ⟨rfl, rfl, rfl⟩ : d2 = d ∧ [] = ws ∧ [] = rs := by
            simpa using Except.ok.inj h
          exact ⟨discover_fetchCalls_30 hd, by simp⟩
        · rw [if_neg ha] at h
          obtain ⟨rfl, rfl, rfl⟩ :
              d2 = d ∧ spawnWorkers d2.matchUrls = ws
                ∧ (spawnWorkers d2.matchUrls).filterMap (getDetails env) = rs := by
            simpa using Except.ok.inj h
          exact ⟨discover_fetchCalls_30 hd, spawnWorkers_timeout _⟩

end ComicWikiPlugin
